import Mathlib

/-!
Verification development for `docs/user_guide/vectorizers_04.ipynb` of the
redis-vl-python repository.  The notebook is a sequential script: it obtains
provider credentials from environment variables (with interactive fallbacks),
instantiates provider-specific vectorizer clients, calls their
`embed` / `embed_many` / `aembed_many` methods, and finally drives a Redis
search index (create, load, query, delete) built from a YAML schema.

The notebook is embedded shallowly as:
  * a trace of events (`notebookTrace`), one entry per executed statement of
    interest, transcribed cell by cell from the notebook source;
  * the semantics of the credential-lookup idioms
    `os.environ.get(VAR) or getpass.getpass(MSG)` and
    `os.environ.get(VAR, DEFAULT)` (`resolveCred`);
  * the YAML index schema shown in the notebook (`schemaYaml`);
  * the outputs recorded in the executed notebook (printed vector dimensions,
    printed embedding prefixes, the keys returned by `index.load`, and the
    query results with their `vector_distance` values).

The vectorizer implementations themselves (redisvl's `OpenAITextVectorizer`
etc.) live outside the notebook; where a claim depends on their behaviour the
corresponding definition is modelled from the specification and marked as
such in its doc comment.
-/

/-- The embedding providers exercised by the notebook. -/
inductive Provider
  | openai
  | azureOpenai
  | huggingface
  | vertexai
  | cohere
deriving DecidableEq, Repr

/-- List of all providers appearing in the notebook. -/
def allProviders : List Provider :=
  [.openai, .azureOpenai, .huggingface, .vertexai, .cohere]

theorem allProviders_complete (p : Provider) : p ∈ allProviders := by
  cases p <;> simp [allProviders]

/-- A vector produced by an external embedding service, identified by its
provenance: which provider produced it, from which input text, with which
`input_type` argument (Cohere only), and whether it was requested serialized
as a bytes buffer (`as_buffer=True`). -/
structure Vec where
  provider : Provider
  text : String
  inputType : Option String
  asBuffer : Bool
deriving DecidableEq, Repr

/-- A provider vectorizer client, as instantiated in the notebook:
a provider together with the model identifier passed at construction
(`none` when the notebook relies on the library default, as for VertexAI). -/
structure TextVectorizer where
  provider : Provider
  model : Option String
deriving DecidableEq, Repr

/-- Modelled from the spec: `embed` calls the provider on one text and
returns its embedding vector ("call `embed`/`embed_many` ... every step is a
direct call into a third-party SDK"); the vectorizer implementation is not
part of the notebook, so the result is represented by its provenance. -/
def TextVectorizer.embed (c : TextVectorizer) (text : String)
    (inputType : Option String) (asBuffer : Bool) : Vec :=
  ⟨c.provider, text, inputType, asBuffer⟩

/-- Modelled from the spec: `embed_many` embeds a batch of texts, producing
"a list of (text, vector) pairs" — one vector per input text, in order. -/
def TextVectorizer.embed_many (c : TextVectorizer) (texts : List String)
    (asBuffer : Bool) : List Vec :=
  texts.map fun t => c.embed t none asBuffer

/-- Modelled from the spec: `aembed_many` is "an asynchronous batch call
... an alternative to a synchronous batch call"; it produces the same
one-vector-per-input batch as `embed_many` with no buffer serialization. -/
def TextVectorizer.aembed_many (c : TextVectorizer) (texts : List String) :
    List Vec :=
  texts.map fun t => c.embed t none false

/-- The OpenAI vectorizer instantiated in the notebook. -/
def oai : TextVectorizer := ⟨.openai, some "text-embedding-ada-002"⟩

/-- The Azure OpenAI vectorizer; its model is the deployment name resolved
from the environment, passed in as a parameter. -/
def az_oai (deploymentName : String) : TextVectorizer :=
  ⟨.azureOpenai, some deploymentName⟩

/-- The HuggingFace vectorizer instantiated in the notebook. -/
def hf : TextVectorizer := ⟨.huggingface, some "sentence-transformers/all-mpnet-base-v2"⟩

/-- The VertexAI vectorizer instantiated in the notebook (no model named). -/
def vtx : TextVectorizer := ⟨.vertexai, none⟩

/-- The Cohere vectorizer instantiated in the notebook. -/
def co : TextVectorizer := ⟨.cohere, some "embed-english-v3.0"⟩

/-- The batch of three sentences embedded throughout the notebook. -/
def sentences : List String :=
  ["That is a happy dog", "That is a happy person", "Today is a sunny day"]

/-- What a missing credential environment variable falls back to in the
notebook: an interactive `getpass.getpass(msg)` prompt, or a literal
default value (second argument of `os.environ.get`). -/
inductive CredFallback
  | toPrompt (msg : String)
  | toDefault (value : String)
deriving DecidableEq, Repr

/-- Where a resolved credential value came from. -/
inductive CredResult
  | fromEnv (value : String)
  | fromPrompt (msg : String)
  | fromDefault (value : String)
deriving DecidableEq, Repr

/-- Semantics of the notebook's two credential-lookup idioms over an
environment `env`:
`os.environ.get(var) or getpass.getpass(msg)` prompts when the variable is
absent (or set to the falsy empty string), and `os.environ.get(var, d)`
returns the default `d` when the variable is absent. -/
def resolveCred (env : String → Option String) (var : String) :
    CredFallback → CredResult
  | .toPrompt msg =>
      match env var with
      | some v => if v = "" then .fromPrompt msg else .fromEnv v
      | none => .fromPrompt msg
  | .toDefault d =>
      match env var with
      | some v => .fromEnv v
      | none => .fromDefault d

/-- An environment in which every variable is absent. -/
def emptyEnv : String → Option String := fun _ => none

/-- Whether a resolved credential came from an interactive prompt. -/
def CredResult.isPromptResult : CredResult → Bool
  | .fromPrompt _ => true
  | _ => false

/-- A field value in a record passed to `index.load`: the notebook's records
hold a raw string and an embedding vector. -/
inductive FieldValue
  | str (s : String)
  | vec (v : Vec)
deriving DecidableEq, Repr

/-- One record of the notebook's `data` list: `{"text": t, "embedding": v}`. -/
def mkRecord (t : String) (v : Vec) : List (String × FieldValue) :=
  [("text", .str t), ("embedding", .vec v)]

/-- The embeddings loaded into the index: produced by
`hf.embed_many(sentences, as_buffer=True)` (notebook cell 14). -/
def loadedEmbeddings : List Vec := hf.embed_many sentences true

/-- The notebook's `data` list:
`[{"text": t, "embedding": v} for t, v in zip(sentences, embeddings)]`. -/
def loadData : List (List (String × FieldValue)) :=
  (sentences.zip loadedEmbeddings).map fun p => mkRecord p.1 p.2

/-- The query embedding: `hf.embed("That is a happy cat")`. -/
def query_embedding : Vec := hf.embed "That is a happy cat" none false

/-- The `VectorQuery` constructed in the notebook, with its keyword
arguments. -/
structure VectorQuery where
  vector : Vec
  vector_field_name : String
  return_fields : List String
  num_results : Nat
deriving DecidableEq, Repr

/-- The notebook's query object. -/
def query : VectorQuery :=
  { vector := query_embedding
    vector_field_name := "embedding"
    return_fields := ["text"]
    num_results := 3 }

/-- The fields the result-printing loop reads from each returned document:
`print(doc["text"], doc["vector_distance"])`. -/
def resultReadFields : List String := ["text", "vector_distance"]

/-- One event of the notebook's execution trace. -/
inductive Event
  | getCredential (var : String) (fallback : CredFallback)
  | setEnvVar (var : String) (value : String)
  | instantiateClient (p : Provider)
  | embedOne (p : Provider) (text : String) (inputType : Option String)
      (asBuffer : Bool)
  | embedMany (p : Provider) (texts : List String) (asBuffer : Bool)
  | aembedMany (p : Provider) (texts : List String)
  | indexFromYaml (path : String)
  | indexConnect (url : String)
  | indexCreate (overwrite : Bool)
  | shellCmd (cmd : String)
  | indexLoad (records : List (List (String × FieldValue)))
  | indexQuery (q : VectorQuery)
  | indexDelete
deriving DecidableEq, Repr

/-- The notebook's execution trace, transcribed cell by cell (cells 4-27). -/
def notebookTrace : List Event :=
  [ -- cell 4: api_key = os.environ.get("OPENAI_API_KEY") or getpass.getpass(...)
    .getCredential "OPENAI_API_KEY" (.toPrompt "Enter your OpenAI API key: "),
    -- cell 5: oai = OpenAITextVectorizer(...); test = oai.embed(...)
    .instantiateClient .openai,
    .embedOne .openai "This is a test sentence." none false,
    -- cell 6: embeddings = oai.embed_many(sentences)
    .embedMany .openai sentences false,
    -- cell 7: embeddings = await oai.aembed_many(sentences)
    .aembedMany .openai sentences,
    -- cell 9: four Azure lookups
    .getCredential "AZURE_OPENAI_API_KEY"
      (.toPrompt "Enter your AzureOpenAI API key: "),
    .getCredential "OPENAI_API_VERSION"
      (.toPrompt "Enter your AzureOpenAI API version: "),
    .getCredential "AZURE_OPENAI_ENDPOINT"
      (.toPrompt "Enter your AzureOpenAI API endpoint: "),
    .getCredential "AZURE_OPENAI_DEPLOYMENT_NAME"
      (.toDefault "text-embedding-ada-002"),
    -- cell 10: az_oai = AzureOpenAITextVectorizer(...); test = az_oai.embed(...)
    .instantiateClient .azureOpenai,
    .embedOne .azureOpenai "This is a test sentence." none false,
    -- cell 11: embeddings = await az_oai.aembed_many(sentences)
    .aembedMany .azureOpenai sentences,
    -- cell 13: os.environ["TOKENIZERS_PARALLELISM"] = "false"; hf = HFTextVectorizer(...)
    .setEnvVar "TOKENIZERS_PARALLELISM" "false",
    .instantiateClient .huggingface,
    .embedOne .huggingface "This is a test sentence." none false,
    -- cell 14: embeddings = hf.embed_many(sentences, as_buffer=True)
    .embedMany .huggingface sentences true,
    -- cell 16: vtx = VertexAITextVectorizer(api_config={...}) — the three
    -- credential lookups are evaluated as arguments before the constructor runs
    .getCredential "GCP_PROJECT_ID" (.toPrompt "Enter your GCP Project ID: "),
    .getCredential "GCP_LOCATION" (.toPrompt "Enter your GCP Location: "),
    .getCredential "GOOGLE_APPLICATION_CREDENTIALS"
      (.toPrompt "Enter your Google App Credentials path: "),
    .instantiateClient .vertexai,
    .embedOne .vertexai "This is a test sentence." none false,
    -- cell 18: api_key = os.environ.get("COHERE_API_KEY") or getpass.getpass(...)
    .getCredential "COHERE_API_KEY" (.toPrompt "Enter your Cohere API key: "),
    -- cell 20: co = CohereTextVectorizer(...); two embed calls with input_type
    .instantiateClient .cohere,
    .embedOne .cohere "This is a test sentence." (some "search_query") false,
    .embedOne .cohere "This is a test sentence." (some "search_document") false,
    -- cell 23: index = SearchIndex.from_yaml(...); index.connect(...); index.create(...)
    .indexFromYaml "./schema.yaml",
    .indexConnect "redis://localhost:6379",
    .indexCreate true,
    -- cell 24: !rvl index listall
    .shellCmd "rvl index listall",
    -- cell 25: index.load(data)
    .indexLoad loadData,
    -- cell 26: query_embedding = hf.embed("That is a happy cat"); index.query(query)
    .embedOne .huggingface "That is a happy cat" none false,
    .indexQuery query,
    -- cell 27: index.delete()
    .indexDelete ]

/-- Field types of the YAML schema. -/
inductive FieldType
  | text
  | vector
deriving DecidableEq, Repr

/-- Attributes of a vector field in the YAML schema. -/
structure VectorAttrs where
  dims : Nat
  algorithm : String
  distance_metric : String
deriving DecidableEq, Repr

/-- A field declaration of the YAML schema. -/
structure SchemaField where
  name : String
  type : FieldType
  attrs : Option VectorAttrs
deriving DecidableEq, Repr

/-- The `index:` section of the YAML schema. -/
structure IndexSettings where
  name : String
  keyPrefix : String
  storage_type : String
deriving DecidableEq, Repr

/-- A YAML index schema. -/
structure IndexSchema where
  version : String
  index : IndexSettings
  fields : List SchemaField
deriving DecidableEq, Repr

/-- The `schema.yaml` shown in the notebook (cell 22). -/
def schemaYaml : IndexSchema :=
  { version := "0.1.0"
    index := { name := "vectorizers", keyPrefix := "doc", storage_type := "hash" }
    fields :=
      [ { name := "sentence", type := .text, attrs := none },
        { name := "embedding", type := .vector,
          attrs := some { dims := 768, algorithm := "flat",
                          distance_metric := "cosine" } } ] }

/-- The declared field names of the schema. -/
def schemaFieldNames : List String := schemaYaml.fields.map (·.name)

/-- The dims declared for the schema's vector field, when one exists. -/
def schemaVectorDims : Option Nat :=
  match (schemaYaml.fields.filter fun f => f.type == .vector).map (·.attrs) with
  | [some a] => some a.dims
  | _ => none

/-- Modelled from the spec: the dimensionality of the example HuggingFace
model (`sentence-transformers/all-mpnet-base-v2`) — "768 for the example
HuggingFace model".  The notebook never prints this length and the
`HFTextVectorizer` implementation is not part of the notebook source. -/
def hfModelDims : Nat := 768

/-- The "Vector dimensions:" outputs recorded in the executed notebook,
keyed by the provenance of the printed embedding (cells 5, 10 and 20). -/
def recordedDims : Provider → String → Option String → Option Nat
  | .openai, "This is a test sentence.", none => some 1536
  | .azureOpenai, "This is a test sentence.", none => some 1536
  | .cohere, "This is a test sentence.", some "search_query" => some 1024
  | .cohere, "This is a test sentence.", some "search_document" => some 1024
  | _, _, _ => none

/-- Recorded count printed by cell 7: "Number of Embeddings: 3". -/
def recordedAembedManyCount : Nat := 3

/-- First ten components of the Cohere `search_query` embedding, as printed
in the notebook (cell 20). -/
def cohereQueryPrefix10 : List ℚ :=
  [-0.010856628, -0.019683838, -0.0062179565, 0.003545761, -0.047943115,
   0.0009365082, -0.005924225, 0.016174316, -0.03289795, 0.049194336]

/-- First ten components of the Cohere `search_document` embedding, as
printed in the notebook (cell 20). -/
def cohereDocPrefix10 : List ℚ :=
  [-0.009712219, -0.016036987, 2.8073788e-5, -0.022491455, -0.041259766,
   0.002281189, -0.033294678, -0.00057029724, -0.026260376, 0.0579834]

/-- The keys returned by `index.load(data)`, as recorded in cell 25. -/
def recordedLoadKeys : List String :=
  ["doc:17c401b679ce43cb82f3ab2280ad02f2",
   "doc:3fc0502bec434b17a3f06e20824b2e59",
   "doc:199f17b0e5d24dcaa1fd4fb41558150c"]

/-- One document of the recorded query output: the returned `text` field and
its `vector_distance`. -/
structure QueryResult where
  text : String
  vector_distance : ℚ
deriving DecidableEq, Repr

/-- The query results printed in cell 26, in the order they were printed. -/
def recordedQueryResults : List QueryResult :=
  [ { text := "That is a happy dog", vector_distance := 0.160862326622 },
    { text := "That is a happy person", vector_distance := 0.273598492146 },
    { text := "Today is a sunny day", vector_distance := 0.744559407234 } ]

/-- Whether the recorded query results are in nondecreasing
`vector_distance` order: every consecutive pair is ordered. -/
def sortedByDistance : List QueryResult → Bool
  | [] => true
  | [_] => true
  | a :: b :: rest =>
      decide (a.vector_distance ≤ b.vector_distance) &&
        sortedByDistance (b :: rest)

/-- Whether string `s` begins with `pre`, compared on the underlying
character lists. -/
def strStartsWith (pre s : String) : Bool := pre.data.isPrefixOf s.data

/-- All vectors produced by embed-style calls in the notebook trace. -/
def traceVecs : List Vec :=
  notebookTrace.flatMap fun e =>
    match e with
    | .embedOne p t it b => [⟨p, t, it, b⟩]
    | .embedMany p ts b => ts.map fun t => ⟨p, t, none, b⟩
    | .aembedMany p ts => ts.map fun t => ⟨p, t, none, false⟩
    | _ => []

/-- The provider whose credentials a given environment variable carries. -/
def credProvider : String → Option Provider
  | "OPENAI_API_KEY" => some .openai
  | "AZURE_OPENAI_API_KEY" => some .azureOpenai
  | "OPENAI_API_VERSION" => some .azureOpenai
  | "AZURE_OPENAI_ENDPOINT" => some .azureOpenai
  | "AZURE_OPENAI_DEPLOYMENT_NAME" => some .azureOpenai
  | "GCP_PROJECT_ID" => some .vertexai
  | "GCP_LOCATION" => some .vertexai
  | "GOOGLE_APPLICATION_CREDENTIALS" => some .vertexai
  | "COHERE_API_KEY" => some .cohere
  | _ => none

/-- The credential consultations of the notebook, in trace order. -/
def credentialConsultations : List (String × CredFallback) :=
  notebookTrace.filterMap fun e =>
    match e with
    | .getCredential v f => some (v, f)
    | _ => none

/-- Whether an event obtains a credential for provider `p`. -/
def isCredFor (p : Provider) : Event → Bool
  | .getCredential v _ => credProvider v == some p
  | _ => false

/-- Whether an event instantiates the client of provider `p`. -/
def isInstantiate (p : Provider) : Event → Bool
  | .instantiateClient q => q == p
  | _ => false

/-- Whether an event is an embed-style call on the client of provider `p`. -/
def isClientCall (p : Provider) : Event → Bool
  | .embedOne q _ _ _ => q == p
  | .embedMany q _ _ => q == p
  | .aembedMany q _ => q == p
  | _ => false

/-- Whether an event is one of the four index operations. -/
def isIndexOp : Event → Bool
  | .indexCreate _ => true
  | .indexLoad _ => true
  | .indexQuery _ => true
  | .indexDelete => true
  | _ => false

/-- Strict order on optional trace positions; holds only when both exist. -/
def optLt : Option Nat → Option Nat → Bool
  | some a, some b => a < b
  | _, _ => false

/-- Every credential-obtaining event for `p` (if any) precedes the
instantiation of `p`'s client. -/
def credsBeforeClient (p : Provider) : Bool :=
  match notebookTrace.findIdx? (isInstantiate p) with
  | some i => !((notebookTrace.drop i).any (isCredFor p))
  | none => false

/-- The client of `p` is instantiated exactly once, strictly before the
first embed-style call on it. -/
def clientBeforeCalls (p : Provider) : Bool :=
  match notebookTrace.findIdx? (isClientCall p) with
  | some j =>
      (notebookTrace.take j).any (isInstantiate p) &&
        !((notebookTrace.drop j).any (isInstantiate p))
  | none => false

/-- Trace position of the `embed_many` call producing the loaded vectors. -/
def loadedVecIdx : Option Nat :=
  notebookTrace.findIdx? (· == .embedMany .huggingface sentences true)

/-- Trace position of the first of the four index operations. -/
def firstIndexOpIdx : Option Nat := notebookTrace.findIdx? isIndexOp

/-- The four index operations occur in the order create, load, query,
delete, and the delete is the final event of the trace. -/
def indexOpsOrdered : Bool :=
  let createIdx := notebookTrace.findIdx? fun e =>
    match e with | .indexCreate _ => true | _ => false
  let loadIdx := notebookTrace.findIdx? fun e =>
    match e with | .indexLoad _ => true | _ => false
  let queryIdx := notebookTrace.findIdx? fun e =>
    match e with | .indexQuery _ => true | _ => false
  let deleteIdx := notebookTrace.findIdx? fun e =>
    match e with | .indexDelete => true | _ => false
  optLt createIdx loadIdx && optLt loadIdx queryIdx &&
    optLt queryIdx deleteIdx &&
    (notebookTrace.getLast? == some .indexDelete)

/-- Whether provider `p` is shown using `aembed_many` in the notebook. -/
def usesAembedMany (p : Provider) : Bool :=
  notebookTrace.any fun e =>
    match e with
    | .aembedMany q _ => q == p
    | _ => false

/-- The providers shown using `aembed_many`, in provider order. -/
def providersShownUsingAembedMany : List Provider :=
  allProviders.filter usesAembedMany

/-- Modelled from the spec: the fixed provider-determined dimensionalities —
"1536 dims for OpenAI/Azure OpenAI, 1024 for Cohere, 768 for the example
HuggingFace model"; the spec does not state VertexAI's dimensionality. -/
def specDims : Provider → Option Nat
  | .openai => some 1536
  | .azureOpenai => some 1536
  | .cohere => some 1024
  | .huggingface => some 768
  | .vertexai => none

/-- C1: every embedding whose dimensionality the executed notebook records
has the fixed provider-determined dimensionality — 1536 for the OpenAI and
Azure OpenAI embed calls, 1024 for both Cohere embed calls — every recorded
dimensionality agrees with the provider table, and the HuggingFace model's
768 dims equal the dims declared for the schema's vector field. -/
theorem C1_embedding_dimensions :
    recordedDims .openai "This is a test sentence." none = some 1536 ∧
    recordedDims .azureOpenai "This is a test sentence." none = some 1536 ∧
    recordedDims .cohere "This is a test sentence." (some "search_query") =
      some 1024 ∧
    recordedDims .cohere "This is a test sentence." (some "search_document") =
      some 1024 ∧
    (traceVecs.all fun v =>
      match recordedDims v.provider v.text v.inputType with
      | some d => specDims v.provider == some d
      | none => true) = true ∧
    hfModelDims = 768 ∧ schemaVectorDims = some hfModelDims := by
  decide

/-- C2 counterexample: the notebook consults AZURE_OPENAI_DEPLOYMENT_NAME,
but when that variable is absent it falls back to the literal default
"text-embedding-ada-002", not to an interactive credential prompt. -/
theorem C2_deployment_name_no_prompt :
    Event.getCredential "AZURE_OPENAI_DEPLOYMENT_NAME"
      (.toDefault "text-embedding-ada-002") ∈ notebookTrace ∧
    resolveCred emptyEnv "AZURE_OPENAI_DEPLOYMENT_NAME"
      (.toDefault "text-embedding-ada-002") =
      .fromDefault "text-embedding-ada-002" ∧
    (resolveCred emptyEnv "AZURE_OPENAI_DEPLOYMENT_NAME"
      (.toDefault "text-embedding-ada-002")).isPromptResult = false := by
  decide

/-- C2 amended: the notebook's credential consultations are exactly the nine
listed lookups, in order; for each of the eight besides
AZURE_OPENAI_DEPLOYMENT_NAME an absent variable falls back to an interactive
prompt, while AZURE_OPENAI_DEPLOYMENT_NAME alone falls back to the default
value "text-embedding-ada-002"; these fallbacks are the only error handling
in the trace. -/
theorem C2_credential_fallbacks :
    credentialConsultations =
      [("OPENAI_API_KEY", .toPrompt "Enter your OpenAI API key: "),
       ("AZURE_OPENAI_API_KEY", .toPrompt "Enter your AzureOpenAI API key: "),
       ("OPENAI_API_VERSION",
        .toPrompt "Enter your AzureOpenAI API version: "),
       ("AZURE_OPENAI_ENDPOINT",
        .toPrompt "Enter your AzureOpenAI API endpoint: "),
       ("AZURE_OPENAI_DEPLOYMENT_NAME", .toDefault "text-embedding-ada-002"),
       ("GCP_PROJECT_ID", .toPrompt "Enter your GCP Project ID: "),
       ("GCP_LOCATION", .toPrompt "Enter your GCP Location: "),
       ("GOOGLE_APPLICATION_CREDENTIALS",
        .toPrompt "Enter your Google App Credentials path: "),
       ("COHERE_API_KEY", .toPrompt "Enter your Cohere API key: ")] ∧
    (credentialConsultations.all fun c =>
      match c.2 with
      | .toPrompt msg => resolveCred emptyEnv c.1 c.2 == .fromPrompt msg
      | .toDefault d => resolveCred emptyEnv c.1 c.2 == .fromDefault d) =
      true ∧
    ((credentialConsultations.filter fun c =>
        !(resolveCred emptyEnv c.1 c.2).isPromptResult).map (·.1)) =
      ["AZURE_OPENAI_DEPLOYMENT_NAME"] := by
  decide

/-- C3 counterexample: both the OpenAI and the Azure OpenAI clients are
shown using `aembed_many`, so the number of providers shown using it is two,
not exactly one. -/
theorem C3_two_not_one :
    usesAembedMany .openai = true ∧
    usesAembedMany .azureOpenai = true ∧
    Provider.openai ≠ Provider.azureOpenai ∧
    ¬ providersShownUsingAembedMany.length = 1 := by
  decide

/-- C3 amended: exactly two provider APIs — OpenAI and Azure OpenAI — are
shown using the asynchronous batch call `aembed_many`; OpenAI is also shown
using the synchronous batch call `embed_many` it is an alternative to. -/
theorem C3_aembed_many_providers :
    providersShownUsingAembedMany = [.openai, .azureOpenai] ∧
    providersShownUsingAembedMany.length = 2 ∧
    Event.embedMany .openai sentences false ∈ notebookTrace ∧
    Event.aembedMany .openai sentences ∈ notebookTrace ∧
    Event.aembedMany .azureOpenai sentences ∈ notebookTrace := by
  decide

/-- C4: the embeddings loaded into the index come from the HuggingFace
`embed_many` call with `as_buffer=True`, every vector in the loaded records
is buffer-serialized, the schema declares hash storage, and no other vector
produced anywhere in the notebook is buffer-serialized. -/
theorem C4_buffer_serialization :
    Event.embedMany .huggingface sentences true ∈ notebookTrace ∧
    (loadData.all fun r => r.all fun f =>
      match f.2 with
      | .vec v => v.asBuffer
      | .str _ => true) = true ∧
    schemaYaml.index.storage_type = "hash" ∧
    traceVecs.filter (·.asBuffer) = hf.embed_many sentences true := by
  decide

/-- C5: in the notebook trace, for every provider all credential lookups
precede the client instantiation and the instantiation precedes the first
embed-style call on the client; the `embed_many` call producing the loaded
vectors precedes every index operation; and the index operations occur in
the order create, load, query, delete, with the delete as the final event. -/
theorem C5_control_flow_order :
    (∀ p : Provider, credsBeforeClient p = true ∧ clientBeforeCalls p = true) ∧
    optLt loadedVecIdx firstIndexOpIdx = true ∧
    indexOpsOrdered = true := by
  refine ⟨fun p => ?_, by decide, by decide⟩
  cases p <;> exact ⟨by decide, by decide⟩

/-- C6: the nearest-neighbor `VectorQuery` is built with `num_results = 3`,
and the three recorded result documents are in nondecreasing
`vector_distance` order: each consecutive pair is ordered. -/
theorem C6_query_distance_order :
    query.num_results = 3 ∧
    recordedQueryResults.length = 3 ∧
    sortedByDistance recordedQueryResults = true := by
  refine ⟨by decide, ?_, ?_⟩
  · simp [recordedQueryResults]
  · simp only [sortedByDistance, recordedQueryResults, Bool.and_eq_true,
      decide_eq_true_eq]
    norm_num

/-- C7: the only index construction in the trace is from the YAML schema
file, which declares the field names sentence and embedding, 768 dims, the
cosine distance metric and the flat algorithm; and the only shell command —
hence the only index-listing operation — is `rvl index listall`. -/
theorem C7_yaml_schema_and_listing :
    (notebookTrace.filterMap fun e =>
      match e with
      | Event.indexFromYaml p => some p
      | _ => none) = ["./schema.yaml"] ∧
    schemaFieldNames = ["sentence", "embedding"] ∧
    schemaVectorDims = some 768 ∧
    (schemaYaml.fields.filterMap (·.attrs)).map (·.algorithm) = ["flat"] ∧
    (schemaYaml.fields.filterMap (·.attrs)).map (·.distance_metric) =
      ["cosine"] ∧
    (notebookTrace.filterMap fun e =>
      match e with
      | Event.shellCmd c => some c
      | _ => none) = ["rvl index listall"] := by
  decide

/-- C8: every loaded record has exactly the keys text and embedding in that
order, the query returns and the print loop reads the field text, and text
is not among the schema's declared field names, whose only text-typed field
is named sentence. -/
theorem C8_text_key_mismatch :
    (loadData.map fun r => r.map Prod.fst) =
      [["text", "embedding"], ["text", "embedding"], ["text", "embedding"]] ∧
    query.return_fields = ["text"] ∧
    "text" ∈ resultReadFields ∧
    "text" ∉ schemaFieldNames ∧
    (schemaYaml.fields.filter fun f => f.type == .text).map (·.name) =
      ["sentence"] := by
  decide

/-- C9: `aembed_many` on the 3-element sentence list returns one embedding
per input sentence in order — 3 embeddings, matching the recorded count —
and `index.load` over the 3 resulting records returned exactly 3 keys, each
beginning with the schema-declared prefix doc followed by the key
separator. -/
theorem C9_batch_cardinality :
    (oai.aembed_many sentences).length = sentences.length ∧
    (oai.aembed_many sentences).length = recordedAembedManyCount ∧
    oai.aembed_many sentences =
      sentences.map (fun t => oai.embed t none false) ∧
    loadData.length = 3 ∧
    recordedLoadKeys.length = loadData.length ∧
    (recordedLoadKeys.all fun k =>
      strStartsWith (schemaYaml.index.keyPrefix ++ ":") k) = true := by
  decide

/-- C10: the two Cohere embed calls share the input text but differ in
`input_type`; both recorded dimensionalities are 1024, yet the recorded
embedding prefixes differ — the embedding depends on the pair
(text, input_type), not on the text alone. -/
theorem C10_cohere_input_type_sensitivity :
    Event.embedOne .cohere "This is a test sentence." (some "search_query")
      false ∈ notebookTrace ∧
    Event.embedOne .cohere "This is a test sentence." (some "search_document")
      false ∈ notebookTrace ∧
    recordedDims .cohere "This is a test sentence." (some "search_query") =
      some 1024 ∧
    recordedDims .cohere "This is a test sentence." (some "search_document") =
      some 1024 ∧
    cohereQueryPrefix10.length = 10 ∧
    cohereDocPrefix10.length = 10 ∧
    cohereQueryPrefix10 ≠ cohereDocPrefix10 := by
  refine ⟨by decide, by decide, by decide, by decide, ?_, ?_, ?_⟩
  · simp [cohereQueryPrefix10]
  · simp [cohereDocPrefix10]
  · simp only [cohereQueryPrefix10, cohereDocPrefix10, ne_eq, List.cons.injEq,
      not_and]
    intro h
    norm_num at h
